import Mathlib

/-!
Shallow embedding of `src/api/api.go` (package `api` of the audiobait
repository).  Go methods with pointer receivers are embedded as pure state
transformers returning the (possibly updated) receiver together with their
Go results.  The HTTP transport and the on-disk filesystem are external
capabilities; each network call is modelled by an explicit outcome value
describing what the transport produced, and the filesystem by an explicit
record threaded through the functions.  Machine integers are modelled as
`Int`/`Nat` (no overflow is relevant in this code).  Fallible Go functions
return `Except`.
-/

/-- Go structure `Error` (api.go lines 294-297): an error message together
with an explicit permanence flag. -/
structure Error where
  message : String
  permanent : Bool
deriving DecidableEq, Repr

/-- Method `(*Error).Error` (api.go lines 300-302). -/
def Error.ErrorMsg (e : Error) : String := e.message

/-- Method `(*Error).Permanent` (api.go lines 306-308). -/
def Error.Permanent (e : Error) : Bool := e.permanent

/-- A value of Go interface type `error` returned by this package: either a
classified `*api.Error`, or an error of any other dynamic type (those are
produced by `errors.New`, `fmt.Errorf`, the `json` and `http` libraries);
for any other dynamic type only the message is observable here. -/
inductive GoError where
  | api (e : Error)
  | other (message : String)
deriving DecidableEq, Repr

/-- Function `IsPermanentError` (api.go lines 312-321).  The argument is
`Option GoError` because a Go `error` may be `nil` (`none`). -/
def IsPermanentError : Option GoError → Bool
  | none => false
  | some (.api e) => e.Permanent
  | some (.other _) => true

/-- Function `isHTTPSuccess` (api.go lines 323-325). -/
def isHTTPSuccess (code : Nat) : Bool := 200 ≤ code && code < 300

/-- Function `isHTTPClientError` (api.go lines 327-329). -/
def isHTTPClientError (code : Nat) : Bool := 400 ≤ code && code < 500

/-- Function `temporaryError` (api.go lines 331-333). -/
def temporaryError (msg : String) : GoError := .api ⟨msg, false⟩

/-- Go structure `CacophonyAPI` (api.go lines 54-61). -/
structure CacophonyAPI where
  serverURL : String
  group : String
  deviceName : String
  password : String
  token : String
  justRegistered : Bool
deriving DecidableEq, Repr

/-- Method `Password` (api.go lines 63-65). -/
def CacophonyAPI.Password (api : CacophonyAPI) : String := api.password

/-- Method `JustRegistered` (api.go lines 67-69). -/
def CacophonyAPI.JustRegistered (api : CacophonyAPI) : Bool := api.justRegistered

/-- Go structure `tokenResponse` (api.go lines 229-233): the decoded body of
the `/authenticate_device` response. -/
structure tokenResponse where
  Success : Bool
  Messages : List String
  Token : String
deriving DecidableEq, Repr

/-- Method `(*tokenResponse).message` (api.go lines 235-240). -/
def tokenResponse.message (r : tokenResponse) : String :=
  match r.Messages with
  | m :: _ => m
  | [] => "unknown"

/-- Outcome of the `http.Post` + body-decode step of `newToken`: either the
POST itself fails, or a response is obtained whose body either fails to
decode as a `tokenResponse` or decodes successfully. -/
inductive AuthOutcome where
  | transportError (msg : String)
  | response (decoded : Except String tokenResponse)
deriving Repr

/-- Result of `newToken`/`NewAPI`-style operations: the receiver after the
call, the Go return value, and how many network requests were issued. -/
structure AuthResult where
  api : CacophonyAPI
  result : Except GoError Unit
  networkCalls : Nat
deriving Repr

/-- Method `newToken` (api.go lines 71-102).  The empty-password check runs
before any network activity; `json.Marshal` of a `map[string]string` cannot
fail and is modelled as total. -/
def newToken (api : CacophonyAPI) (out : AuthOutcome) : AuthResult :=
  if api.password = "" then ⟨api, .error (.other "no password set"), 0⟩
  else
    match out with
    | .transportError m => ⟨api, .error (.other m), 1⟩
    | .response (.error m) => ⟨api, .error (.other ("decode: " ++ m)), 1⟩
    | .response (.ok r) =>
      if !r.Success then
        ⟨api, .error (.other ("registration failed: " ++ r.message)), 1⟩
      else ⟨{ api with token := r.Token }, .ok (), 1⟩

/-- The composite literal built at the top of `NewAPI` (api.go lines 41-46):
`token` and `justRegistered` take Go zero values. -/
def mkAPI (serverURL group deviceName password : String) : CacophonyAPI :=
  ⟨serverURL, group, deviceName, password, "", false⟩

/-- Result of `NewAPI`: the returned `*CacophonyAPI` (or the error), and the
number of network requests issued. -/
structure NewAPIResult where
  result : Except GoError CacophonyAPI
  networkCalls : Nat
deriving Repr

/-- Function `NewAPI` (api.go lines 40-52). -/
def NewAPI (serverURL group deviceName password : String) (out : AuthOutcome) :
    NewAPIResult :=
  match newToken (mkAPI serverURL group deviceName password) out with
  | ⟨_, .error e, n⟩ => ⟨.error e, n⟩
  | ⟨api2, .ok _, n⟩ => ⟨.ok api2, n⟩

/-- A JSON value as produced by `json.Unmarshal` into `map[string]interface\x7b\x7d`
members: strings, numbers, booleans, null, arrays, and nested objects.
JSON numbers are modelled as integers (Go stores them as `float64`;
integral values — the only numbers this code path manipulates — render
back identically). -/
inductive Json where
  | str (s : String)
  | num (n : Int)
  | bool (b : Bool)
  | null
  | arr (elems : List Json)
  | obj (fields : List (String × Json))
deriving Repr

/-- Character-level JSON string escaping as performed by `json.Marshal`
(quote, backslash, the common control characters, and the HTML-unsafe
characters escaped as in Go's default encoder). -/
def escapeChar (c : Char) : String :=
  if c = '"' then "\\\""
  else if c = '\\' then "\\\\"
  else if c = '\n' then "\\n"
  else if c = '\r' then "\\r"
  else if c = '\t' then "\\t"
  else if c = '<' then "\\u003c"
  else if c = '>' then "\\u003e"
  else if c = '&' then "\\u0026"
  else if c.toNat < 32 then
    "\\u00" ++ String.singleton (Nat.digitChar (c.toNat / 16))
      ++ String.singleton (Nat.digitChar (c.toNat % 16))
  else String.singleton c

/-- JSON rendering of a string literal, as `json.Marshal` does. -/
def renderString (s : String) : String :=
  "\"" ++ String.join (s.toList.map escapeChar) ++ "\""

/-- Lexicographic comparison on Go strings (Go compares byte-wise over
UTF-8, which coincides with code-point order). -/
def charListLe : List Char → List Char → Bool
  | [], _ => true
  | _ :: _, [] => false
  | a :: as, b :: bs =>
    if a.toNat < b.toNat then true
    else if a.toNat = b.toNat then charListLe as bs
    else false

/-- String order used by `json.Marshal` when sorting object keys. -/
def strLe (a b : String) : Bool := charListLe a.toList b.toList

/-- Insertion step of the key sort applied by `json.Marshal` to object
members. -/
def insertField (p : String × Json) : List (String × Json) → List (String × Json)
  | [] => [p]
  | q :: qs => if strLe p.1 q.1 then p :: q :: qs else q :: insertField p qs

/-- Sorting of object members by key, as `json.Marshal` performs on Go
maps. -/
def sortFields : List (String × Json) → List (String × Json)
  | [] => []
  | p :: ps => insertField p (sortFields ps)

mutual

/-- Recursively sort every object's members by key: Go maps are unordered
and `json.Marshal` emits each map's members in sorted key order. -/
def canon : Json → Json
  | .str s => .str s
  | .num n => .num n
  | .bool b => .bool b
  | .null => .null
  | .arr xs => .arr (canonList xs)
  | .obj fs => .obj (sortFields (canonFields fs))

/-- Pointwise `canon` over the elements of a JSON array. -/
def canonList : List Json → List Json
  | [] => []
  | x :: xs => canon x :: canonList xs

/-- Pointwise `canon` over the values of a JSON object. -/
def canonFields : List (String × Json) → List (String × Json)
  | [] => []
  | (k, v) :: ps => (k, canon v) :: canonFields ps

end

mutual

/-- Textual rendering of a JSON value whose objects are already in the
member order to be emitted. -/
def renderJson : Json → String
  | .str s => renderString s
  | .num n => toString n
  | .bool b => if b then "true" else "false"
  | .null => "null"
  | .arr xs => "[" ++ renderList xs ++ "]"
  | .obj fs => "\x7b" ++ renderFields fs ++ "\x7d"

/-- Comma-separated rendering of array elements. -/
def renderList : List Json → String
  | [] => ""
  | [x] => renderJson x
  | x :: y :: xs => renderJson x ++ "," ++ renderList (y :: xs)

/-- Comma-separated rendering of object members. -/
def renderFields : List (String × Json) → String
  | [] => ""
  | [(k, v)] => renderString k ++ ":" ++ renderJson v
  | (k, v) :: q :: fs => renderString k ++ ":" ++ renderJson v ++ "," ++ renderFields (q :: fs)

end

/-- Behaviour of `json.Marshal` on the values this code builds: members of
every object are emitted in sorted key order. -/
def Marshal (j : Json) : String := renderJson (canon j)

/-- Go map assignment `m[k] = v`: any previous entry for `k` is replaced. -/
def mapSet (m : List (String × Json)) (k : String) (v : Json) :
    List (String × Json) :=
  m.filter (fun p => p.1 != k) ++ [(k, v)]

/-- Lookup `m[k]` in the modelled Go map. -/
def lookupField (m : List (String × Json)) (k : String) : Option Json :=
  (m.find? (fun p => p.1 == k)).map (fun p => p.2)

/-- Civil calendar date (year, month, day) of a day count relative to
1970-01-01, computed era-wise exactly as a proleptic-Gregorian conversion
(the arithmetic Go's `time` package implements). -/
def civilFromDays (z0 : Int) : Int × Nat × Nat :=
  let z : Int := z0 + 719468
  let era : Int := Int.fdiv z 146097
  let doe : Nat := (z - era * 146097).toNat
  let yoe : Nat := (doe - doe / 1460 + doe / 36524 - doe / 146096) / 365
  let y : Int := (yoe : Int) + era * 400
  let doy : Nat := doe - (365 * yoe + yoe / 4 - yoe / 100)
  let mp : Nat := (5 * doy + 2) / 153
  let d : Nat := doy - (153 * mp + 2) / 5 + 1
  let m : Nat := if mp < 10 then mp + 3 else mp - 9
  (if m ≤ 2 then y + 1 else y, m, d)

/-- Two-digit zero-padded decimal. -/
def pad2 (n : Nat) : String := if n < 10 then "0" ++ toString n else toString n

/-- Four-digit zero-padded decimal. -/
def pad4 (n : Nat) : String :=
  if n < 10 then "000" ++ toString n
  else if n < 100 then "00" ++ toString n
  else if n < 1000 then "0" ++ toString n
  else toString n

/-- Function `formatTimestamp` (api.go lines 335-337):
`t.UTC().Format(time.RFC3339)`.  A `time.Time` is modelled by its Unix
second count (an instant; `UTC()` only changes the display location, and
the RFC3339 layout renders whole seconds with a trailing `Z` in UTC). -/
def formatTimestamp (t : Int) : String :=
  let days : Int := Int.fdiv t 86400
  let secs : Nat := (t - days * 86400).toNat
  let ymd := civilFromDays days
  let y : String :=
    if ymd.1 < 0 then "-" ++ pad4 (-ymd.1).toNat else pad4 ymd.1.toNat
  y ++ "-" ++ pad2 ymd.2.1 ++ "-" ++ pad2 ymd.2.2 ++ "T"
    ++ pad2 (secs / 3600) ++ ":" ++ pad2 (secs % 3600 / 60) ++ ":"
    ++ pad2 (secs % 60) ++ "Z"

/-- Outcome of the `client.Do` step of `ReportEvent`: either the request
fails at transport level (no response), or a response with a status code is
obtained; for a non-2xx response the body is then read, which may itself
fail. -/
inductive ReportOutcome where
  | transportError (msg : String)
  | response (status : Nat) (bodyRead : Except String String)
deriving Repr

/-- Result of `ReportEvent`: the receiver after the call, the Go return
value, the number of network requests issued, and the body handed to the
POST when one was issued. -/
structure ReportResult where
  api : CacophonyAPI
  result : Except GoError Unit
  networkCalls : Nat
  sentBody : Option String
deriving Repr

/-- Method `ReportEvent` (api.go lines 242-290).  The `jsonDetails` argument
is the result of `json.Unmarshal` on the caller's bytes: `.ok` carries the
decoded object's members, `.error` the unmarshal failure for bytes that are
not valid JSON object syntax.  `json.Marshal` of the rebuilt map and
`http.NewRequest` cannot fail here and are modelled as total. -/
def ReportEvent (api : CacophonyAPI) (jsonDetails : Except String (List (String × Json)))
    (times : List Int) (out : ReportOutcome) : ReportResult :=
  match jsonDetails with
  | .error e => ⟨api, .error (.other e), 0, none⟩
  | .ok details =>
    let dateTimes : List String := times.map formatTimestamp
    let details2 := mapSet details "dateTimes" (.arr (dateTimes.map Json.str))
    let jsonAll := Marshal (.obj details2)
    match out with
    | .transportError m => ⟨api, .error (temporaryError m), 1, some jsonAll⟩
    | .response status bodyRead =>
      if isHTTPSuccess status then ⟨api, .ok (), 1, some jsonAll⟩
      else
        match bodyRead with
        | .error e =>
          ⟨api, .error (temporaryError ("request failed (" ++ toString status
              ++ ") and body read failed: " ++ e)), 1, some jsonAll⟩
        | .ok body =>
          ⟨api, .error (.api ⟨"HTTP request failed (" ++ toString status ++ "): "
              ++ body, isHTTPClientError status⟩), 1, some jsonAll⟩

/-- Classification of an operation's outcome as seen through
`IsPermanentError`: `none` for success, otherwise the permanence verdict of
the returned error. -/
def errPermanence : Except GoError Unit → Option Bool
  | .ok _ => none
  | .error e => some (IsPermanentError (some e))

/-- The filesystem as the fetch operations observe it: the set of
directories known to exist and the files with their byte contents
(`os.MkdirAll`, `os.Create` and writes are modelled as infallible; bytes
are modelled as `Nat`). -/
structure FileSystem where
  dirs : List String
  files : List (String × List Nat)
deriving DecidableEq, Repr

/-- Effect of `os.Create`/`io.Copy` on the modelled filesystem: the file at
`path` now holds exactly `content`. -/
def setFile (fs : FileSystem) (path : String) (content : List Nat) : FileSystem :=
  { fs with files := (path, content) :: fs.files.filter (fun p => p.1 != path) }

/-- Content of the file at `path`, when one exists. -/
def getFileContent (fs : FileSystem) (path : String) : Option (List Nat) :=
  (fs.files.find? (fun p => p.1 == path)).map (fun p => p.2)

/-- Effect of `os.MkdirAll` on the modelled filesystem. -/
def mkdirAll (fs : FileSystem) (dir : String) : FileSystem :=
  { fs with dirs := dir :: fs.dirs }

/-- Go structure `fileResponse` (api.go lines 172-174). -/
structure fileResponse where
  Jwt : String
deriving DecidableEq, Repr

/-- Outcome of the signed-URL `http.Get` inside `getFileFromJWT`: either a
transport failure, or a response carrying a status code, its status text
(as in `resp.Status`) and body bytes. -/
inductive ContentOutcome where
  | transportError (msg : String)
  | response (status : Nat) (statusText : String) (body : List Nat)
deriving DecidableEq, Repr

/-- Result of a fetch-style method: receiver, filesystem and Go return
value. -/
structure FetchResult where
  api : CacophonyAPI
  fs : FileSystem
  result : Except GoError Unit
deriving Repr

/-- Method `getFileFromJWT` (api.go lines 104-132): `os.Create` truncates
or creates the destination before the signed-URL request is issued; only a
200 status lets the body be copied into the file. -/
def getFileFromJWT (api : CacophonyAPI) (jwt : String) (path : String)
    (fs : FileSystem) (out : ContentOutcome) : FetchResult :=
  let fs1 := setFile fs path []
  match out with
  | .transportError m => ⟨api, fs1, .error (.other m)⟩
  | .response status statusText body =>
    if status ≠ 200 then ⟨api, fs1, .error (.other ("bad status: " ++ statusText))⟩
    else ⟨api, setFile fs1 path body, .ok ()⟩

/-- Outcome of the authenticated file-metadata `client.Do` + decode inside
`GetFile` (the status code is never inspected there, only the decode of the
body into a `fileResponse`). -/
inductive MetaOutcome where
  | transportError (msg : String)
  | response (decoded : Except String fileResponse)
deriving Repr

/-- The transport behaviour offered to one `GetFile` call: the metadata
step and, should it be reached, the signed-URL content step. -/
structure FileFetchOutcome where
  meta : MetaOutcome
  content : ContentOutcome
deriving Repr

/-- Method `GetFile` (api.go lines 151-170). -/
def GetFile (api : CacophonyAPI) (fileID : Int) (path : String)
    (fs : FileSystem) (out : FileFetchOutcome) : FetchResult :=
  match out.meta with
  | .transportError m => ⟨api, fs, .error (.other m)⟩
  | .response (.error m) => ⟨api, fs, .error (.other m)⟩
  | .response (.ok fr) => getFileFromJWT api fr.Jwt path fs out.content

/-- Go structure `Combo` (api.go lines 221-227). -/
structure Combo where
  From : String
  Until : String
  Waits : List Int
  Sounds : List String
  Volumes : List Int
deriving DecidableEq, Repr

/-- Go structure `Schedule` (api.go lines 212-218). -/
structure Schedule where
  Combos : List Combo
  AllSounds : List Int
  PlayNights : Int
  Description : String
deriving DecidableEq, Repr

/-- The `filepath.Join(fileFolder, strconv.Itoa(fileID))` path built in
`GetFilesFromSchedule` (clean inputs assumed, as `filepath.Join` produces). -/
def joinPath (dir name : String) : String := dir ++ "/" ++ name

/-- Result of `GetFilesFromSchedule`: receiver, filesystem, Go return value
and the number of `GetFile` attempts made. -/
structure FetchAllResult where
  api : CacophonyAPI
  fs : FileSystem
  result : Except GoError Unit
  attempts : Nat
deriving Repr

/-- The `for _, fileID := range schedule.AllSounds` loop of
`GetFilesFromSchedule` (api.go lines 141-146).  `oracle n` is the transport
behaviour the n-th `GetFile` attempt of the remaining list encounters. -/
def getFilesLoop (api : CacophonyAPI) (folder : String) (ids : List Int)
    (fs : FileSystem) (oracle : Nat → FileFetchOutcome) : FetchAllResult :=
  match ids with
  | [] => ⟨api, fs, .ok (), 0⟩
  | id :: rest =>
    let G := GetFile api id (joinPath folder (toString id)) fs (oracle 0)
    match G.result with
    | .error e => ⟨G.api, G.fs, .error e, 1⟩
    | .ok _ =>
      let R := getFilesLoop G.api folder rest G.fs (fun n => oracle (n + 1))
      ⟨R.api, R.fs, R.result, R.attempts + 1⟩

/-- Method `GetFilesFromSchedule` (api.go lines 135-148): `os.MkdirAll`
first, then the fetch loop over `schedule.AllSounds`. -/
def GetFilesFromSchedule (api : CacophonyAPI) (schedule : Schedule)
    (fileFolder : String) (fs : FileSystem) (oracle : Nat → FileFetchOutcome) :
    FetchAllResult :=
  getFilesLoop api fileFolder schedule.AllSounds (mkdirAll fs fileFolder) oracle

/-- Go structure `scheduleResponse` (api.go lines 206-209). -/
structure scheduleResponse where
  Schedule : Schedule
deriving DecidableEq, Repr

/-- Outcome of the `client.Do` + decode steps of `GetSchedule` (the status
code is never inspected there). -/
inductive ScheduleOutcome where
  | transportError (msg : String)
  | response (decoded : Except String scheduleResponse)
deriving Repr

/-- Result of `GetSchedule`: receiver and Go return values. -/
structure ScheduleResult where
  api : CacophonyAPI
  result : Except GoError Schedule
deriving Repr

/-- Method `GetSchedule` (api.go lines 177-204). -/
def GetSchedule (api : CacophonyAPI) (out : ScheduleOutcome) : ScheduleResult :=
  match out with
  | .transportError m => ⟨api, .error (.other m)⟩
  | .response (.error m) => ⟨api, .error (.other m)⟩
  | .response (.ok sr) => ⟨api, .ok sr.Schedule⟩

theorem find?_filter_ne {α : Type} (l : List (String × α)) (k q : String) (h : q ≠ k) :
    (l.filter (fun p => p.1 != k)).find? (fun p => p.1 == q)
      = l.find? (fun p => p.1 == q) := by
  induction l with
  | nil => rfl
  | cons a l ih =>
    by_cases hak : a.1 = k
    · have h1 : (a.1 != k) = false := by simp [hak]
      have h2 : (a.1 == q) = false := by
        rw [hak]; exact beq_eq_false_iff_ne.mpr (fun hq => h hq.symm)
      simp [List.filter_cons, h1, List.find?, h2, ih]
    · have h1 : (a.1 != k) = true := by simp [hak]
      by_cases haq : a.1 = q
      · have h2 : (a.1 == q) = true := by simp [haq]
        simp [List.filter_cons, h1, List.find?, h2]
      · have h2 : (a.1 == q) = false := beq_eq_false_iff_ne.mpr haq
        simp [List.filter_cons, h1, List.find?, h2, ih]

theorem find?_filter_self {α : Type} (l : List (String × α)) (k : String) (v : α) :
    ((l.filter (fun p => p.1 != k)) ++ [(k, v)]).find? (fun p => p.1 == k)
      = some (k, v) := by
  induction l with
  | nil => simp [List.find?]
  | cons a l ih =>
    by_cases hak : a.1 = k
    · have h1 : (a.1 != k) = false := by simp [hak]
      simp [List.filter_cons, h1, ih]
    · have h1 : (a.1 != k) = true := by simp [hak]
      have h2 : (a.1 == k) = false := beq_eq_false_iff_ne.mpr hak
      simp [List.filter_cons, h1, List.find?, h2, ih]

theorem find?_append_single {α : Type} (l : List (String × α)) (k q : String) (v : α)
    (h : q ≠ k) :
    (l ++ [(k, v)]).find? (fun p => p.1 == q) = l.find? (fun p => p.1 == q) := by
  induction l with
  | nil =>
    have h2 : (k == q) = false := beq_eq_false_iff_ne.mpr (fun hh => h hh.symm)
    simp [List.find?, h2]
  | cons a l ih =>
    by_cases haq : a.1 = q
    · simp [List.find?, haq]
    · have h2 : (a.1 == q) = false := beq_eq_false_iff_ne.mpr haq
      simp [List.find?, h2, ih]

theorem lookup_mapSet_self (m : List (String × Json)) (k : String) (v : Json) :
    lookupField (mapSet m k v) k = some v := by
  unfold lookupField mapSet
  rw [find?_filter_self]
  rfl

theorem lookup_mapSet_other (m : List (String × Json)) (k q : String) (v : Json)
    (h : q ≠ k) :
    lookupField (mapSet m k v) q = lookupField m q := by
  unfold lookupField mapSet
  rw [find?_append_single _ _ _ _ h, find?_filter_ne _ _ _ h]

/-- C3: for every error value carrying the explicit permanence flag (the
classified `*Error` type produced by this library), `IsPermanentError`
returns exactly that flag; for every error of any other shape it returns
`true` (default-to-permanent).  (A `nil` Go error — the absence of an
error — yields `false`, per the source's initial check.) -/
theorem C3_is_permanent_error_law :
    (∀ msg p, IsPermanentError (some (.api ⟨msg, p⟩)) = p)
    ∧ (∀ msg, IsPermanentError (some (.other msg)) = true) :=
  ⟨fun _ _ => rfl, fun _ => rfl⟩

/-- C4: for every serverURL, group and deviceName, authenticating with an
empty password fails immediately with zero transport invocations and no
session is returned. -/
theorem C4_empty_password_fails_without_network :
    ∀ serverURL group deviceName out,
      (NewAPI serverURL group deviceName "" out).result
          = .error (.other "no password set")
      ∧ (NewAPI serverURL group deviceName "" out).networkCalls = 0 := by
  intro s g d out
  exact ⟨rfl, rfl⟩

/-- C7: for every detailJSON that fails to parse as a JSON object,
`ReportEvent` returns the parse error with zero transport invocations and
an unchanged session, and `IsPermanentError` classifies that error as
permanent. -/
theorem C7_invalid_json_fails_before_network :
    ∀ (api : CacophonyAPI) (e : String) (times : List Int) (out : ReportOutcome),
      ReportEvent api (.error e) times out = ⟨api, .error (.other e), 0, none⟩
      ∧ IsPermanentError (some (.other e)) = true := by
  intro api e times out
  exact ⟨rfl, rfl⟩

/-- C2 counterexample: a successful registration stores the token, but the
returned session's `JustRegistered` accessor yields `false`, not `true` —
no code path ever sets the `justRegistered` field. -/
theorem C2_counterexample :
    (NewAPI "s" "g" "dev" "pw" (.response (.ok ⟨true, [], "tok"⟩))).result
      = .ok ⟨"s", "g", "dev", "pw", "tok", false⟩
    ∧ (⟨"s", "g", "dev", "pw", "tok", false⟩ : CacophonyAPI).JustRegistered ≠ true :=
  ⟨rfl, by decide⟩

/-- C2 (amended): for every authentication call receiving a well-formed
response whose success flag is true (and a non-empty password, or the call
fails earlier), the session stores the issued token; the session's
`JustRegistered` accessor returns `false` — the flag is never set. -/
theorem C2_success_stores_token_but_not_registered :
    ∀ (s g d p : String) (r : tokenResponse), p ≠ "" → r.Success = true →
      (NewAPI s g d p (.response (.ok r))).result
        = .ok { mkAPI s g d p with token := r.Token }
      ∧ ({ mkAPI s g d p with token := r.Token } : CacophonyAPI).JustRegistered
        = false := by
  intro s g d p r hp hs
  constructor
  · simp [NewAPI, newToken, mkAPI, hp, hs]
  · rfl

/-- Witness for C2's amended theorem at a concrete successful
registration. -/
theorem C2_witness :
    ("pw" ≠ "")
    ∧ (⟨true, [], "tok"⟩ : tokenResponse).Success = true
    ∧ (NewAPI "s" "g" "dev" "pw" (.response (.ok ⟨true, [], "tok"⟩))).result
        = .ok { mkAPI "s" "g" "dev" "pw" with token := "tok" }
    ∧ ({ mkAPI "s" "g" "dev" "pw" with token := "tok" } : CacophonyAPI).JustRegistered
        = false :=
  ⟨by decide, rfl,
    (C2_success_stores_token_but_not_registered "s" "g" "dev" "pw" ⟨true, [], "tok"⟩
      (by decide) rfl).1,
    (C2_success_stores_token_but_not_registered "s" "g" "dev" "pw" ⟨true, [], "tok"⟩
      (by decide) rfl).2⟩

/-- C6 counterexample: on `success:false` with messages `["bad creds"]` the
operation's error message is `"registration failed: bad creds"`, not
exactly `"bad creds"`. -/
theorem C6_counterexample :
    (newToken (mkAPI "s" "g" "dev" "pw")
        (.response (.ok ⟨false, ["bad creds"], ""⟩))).result
      = .error (.other "registration failed: bad creds")
    ∧ "registration failed: bad creds" ≠ "bad creds" :=
  ⟨rfl, by decide⟩

/-- C6 (amended): on a well-formed response whose success flag is false
(and a non-empty password), authentication fails with message
`"registration failed: "` followed by exactly the first entry of the
server's messages list, or by exactly `"unknown"` when that list is
empty. -/
theorem C6_registration_failure_message :
    ∀ (api : CacophonyAPI) (r : tokenResponse), api.password ≠ "" →
      r.Success = false →
      (newToken api (.response (.ok r))).result
        = .error (.other ("registration failed: " ++ r.message))
      ∧ (r.Messages = [] → r.message = "unknown")
      ∧ (∀ m ms, r.Messages = m :: ms → r.message = m) := by
  intro api r hp hs
  refine ⟨?_, ?_, ?_⟩
  · simp [newToken, hp, hs]
  · intro h; simp [tokenResponse.message, h]
  · intro m ms h; simp [tokenResponse.message, h]

/-- Witness for C6's amended theorem at the spec's two concrete responses. -/
theorem C6_witness :
    ((mkAPI "s" "g" "dev" "pw").password ≠ "")
    ∧ (newToken (mkAPI "s" "g" "dev" "pw")
          (.response (.ok ⟨false, ["bad creds"], ""⟩))).result
        = .error (.other ("registration failed: "
            ++ (⟨false, ["bad creds"], ""⟩ : tokenResponse).message))
    ∧ (⟨false, ["bad creds"], ""⟩ : tokenResponse).message = "bad creds"
    ∧ (⟨false, [], ""⟩ : tokenResponse).message = "unknown" :=
  ⟨by decide,
    (C6_registration_failure_message (mkAPI "s" "g" "dev" "pw")
      ⟨false, ["bad creds"], ""⟩ (by decide) rfl).1,
    ((C6_registration_failure_message (mkAPI "s" "g" "dev" "pw")
      ⟨false, ["bad creds"], ""⟩ (by decide) rfl).2.2 "bad creds" [] rfl),
    ((C6_registration_failure_message (mkAPI "s" "g" "dev" "pw")
      ⟨false, [], ""⟩ (by decide) rfl).2.1 rfl)⟩

theorem isHTTPSuccess_iff (s : Nat) : isHTTPSuccess s = true ↔ (200 ≤ s ∧ s < 300) := by
  simp [isHTTPSuccess]

theorem isHTTPClientError_iff (s : Nat) :
    isHTTPClientError s = true ↔ (400 ≤ s ∧ s < 500) := by
  simp [isHTTPClientError]

/-- C1 counterexample: a response with status 400 (in `[400,500)`) whose
body read fails is returned as a temporary error, not the permanent error
the claim demands for every status in `[400,500)`. -/
theorem C1_counterexample :
    (400 ≤ 400 ∧ 400 < 500)
    ∧ errPermanence (ReportEvent (mkAPI "s" "g" "dev" "pw") (.ok []) []
        (.response 400 (.error "connection reset"))).result = some false
    ∧ some false ≠ some true :=
  ⟨by decide, rfl, by decide⟩

/-- C1 (amended): for every `ReportEvent` call — a 2xx status returns
success; a status in `[400,500)` whose body is successfully read returns a
permanent error; every other non-2xx status with a readable body returns a
temporary error; a non-2xx status whose body read fails returns a
temporary error regardless of status; and a transport-level failure (no
response) returns a temporary error. -/
theorem C1_report_event_classification :
    ∀ (api : CacophonyAPI) (details : List (String × Json)) (times : List Int),
      (∀ m, errPermanence (ReportEvent api (.ok details) times
          (.transportError m)).result = some false)
      ∧ (∀ status bodyRead, 200 ≤ status → status < 300 →
          (ReportEvent api (.ok details) times
            (.response status bodyRead)).result = .ok ())
      ∧ (∀ status body, 400 ≤ status → status < 500 →
          errPermanence (ReportEvent api (.ok details) times
            (.response status (.ok body))).result = some true)
      ∧ (∀ status body, ¬ (200 ≤ status ∧ status < 300) →
          ¬ (400 ≤ status ∧ status < 500) →
          errPermanence (ReportEvent api (.ok details) times
            (.response status (.ok body))).result = some false)
      ∧ (∀ status e, ¬ (200 ≤ status ∧ status < 300) →
          errPermanence (ReportEvent api (.ok details) times
            (.response status (.error e))).result = some false) := by
  intro api details times
  refine ⟨?_, ?_, ?_, ?_, ?_⟩
  · intro m
    rfl
  · intro status bodyRead h1 h2
    have hs : isHTTPSuccess status = true := (isHTTPSuccess_iff status).mpr ⟨h1, h2⟩
    simp [ReportEvent, hs]
  · intro status body h1 h2
    have hs : isHTTPSuccess status = false := by
      cases h : isHTTPSuccess status with
      | false => rfl
      | true =>
        have := (isHTTPSuccess_iff status).mp h
        omega
    have hc : isHTTPClientError status = true :=
      (isHTTPClientError_iff status).mpr ⟨h1, h2⟩
    simp [ReportEvent, hs, hc, errPermanence, IsPermanentError, Error.Permanent]
  · intro status body h1 h2
    have hs : isHTTPSuccess status = false := by
      cases h : isHTTPSuccess status with
      | false => rfl
      | true => exact absurd ((isHTTPSuccess_iff status).mp h) h1
    have hc : isHTTPClientError status = false := by
      cases h : isHTTPClientError status with
      | false => rfl
      | true => exact absurd ((isHTTPClientError_iff status).mp h) h2
    simp [ReportEvent, hs, hc, errPermanence, IsPermanentError, Error.Permanent]
  · intro status e h1
    have hs : isHTTPSuccess status = false := by
      cases h : isHTTPSuccess status with
      | false => rfl
      | true => exact absurd ((isHTTPSuccess_iff status).mp h) h1
    simp [ReportEvent, hs, errPermanence, IsPermanentError, temporaryError,
      Error.Permanent]

/-- Witness for C1's amended theorem: each classification arm evaluated at
a concrete status. -/
theorem C1_witness :
    errPermanence (ReportEvent (mkAPI "s" "g" "dev" "pw") (.ok []) []
        (.transportError "connection refused")).result = some false
    ∧ (ReportEvent (mkAPI "s" "g" "dev" "pw") (.ok []) []
        (.response 204 (.ok ""))).result = .ok ()
    ∧ errPermanence (ReportEvent (mkAPI "s" "g" "dev" "pw") (.ok []) []
        (.response 404 (.ok "not found"))).result = some true
    ∧ errPermanence (ReportEvent (mkAPI "s" "g" "dev" "pw") (.ok []) []
        (.response 503 (.ok "busy"))).result = some false
    ∧ errPermanence (ReportEvent (mkAPI "s" "g" "dev" "pw") (.ok []) []
        (.response 500 (.error "cut"))).result = some false := by
  obtain ⟨h1, h2, h3, h4, h5⟩ :=
    C1_report_event_classification (mkAPI "s" "g" "dev" "pw") [] []
  exact ⟨h1 "connection refused", h2 204 (.ok "") (by decide) (by decide),
    h3 404 "not found" (by decide) (by decide),
    h4 503 "busy" (by decide) (by decide), h5 500 "cut" (by decide)⟩

/-- C5: for every parsed JSON-object detail mapping and every timestamp
list, the body `ReportEvent` hands to the POST is the serialisation of the
mapping with the UTC-RFC3339-formatted timestamp list inserted under the
key `dateTimes`, overwriting any pre-existing value at that key; in
particular, for detail `("a" : 1)` and the single occurrence
2023-01-01T00:00:00Z (Unix 1672531200) the transmitted body is exactly
the JSON text of the spec's round-trip example. -/
theorem C5_report_event_body :
    ∀ (api : CacophonyAPI) (details : List (String × Json)) (times : List Int)
      (out : ReportOutcome),
      (ReportEvent api (.ok details) times out).sentBody
        = some (Marshal (.obj (mapSet details "dateTimes"
            (.arr ((times.map formatTimestamp).map Json.str)))))
      ∧ (∀ v, lookupField (mapSet details "dateTimes" v) "dateTimes" = some v)
      ∧ (∀ v k, k ≠ "dateTimes" →
          lookupField (mapSet details "dateTimes" v) k = lookupField details k)
      ∧ (ReportEvent api (.ok [("a", Json.num 1)]) [1672531200] out).sentBody
        = some "\x7b\"a\":1,\"dateTimes\":[\"2023-01-01T00:00:00Z\"]\x7d" := by
  intro api details times out
  refine ⟨?_, ?_, ?_, ?_⟩
  · cases out with
    | transportError m => rfl
    | response s b =>
      simp only [ReportEvent]
      split
      · rfl
      · cases b with
        | error e => rfl
        | ok body => rfl
  · intro v
    exact lookup_mapSet_self details "dateTimes" v
  · intro v k hk
    exact lookup_mapSet_other details "dateTimes" k v hk
  · cases out with
    | transportError m => rfl
    | response s b =>
      simp only [ReportEvent]
      split
      · rfl
      · cases b with
        | error e => rfl
        | ok body => rfl

/-- Witness for C5 at the spec's round-trip example. -/
theorem C5_witness :
    (ReportEvent (mkAPI "s" "g" "dev" "pw") (.ok [("a", Json.num 1)]) [1672531200]
        (.response 200 (.ok ""))).sentBody
      = some "\x7b\"a\":1,\"dateTimes\":[\"2023-01-01T00:00:00Z\"]\x7d"
    ∧ lookupField (mapSet [("a", Json.num 1)] "dateTimes" (.arr [])) "dateTimes"
      = some (.arr [])
    ∧ ("a" ≠ "dateTimes")
    ∧ lookupField (mapSet [("a", Json.num 1)] "dateTimes" (.arr [])) "a"
      = lookupField [("a", Json.num 1)] "a" := by
  obtain ⟨h1, h2, h3, h4⟩ :=
    C5_report_event_body (mkAPI "s" "g" "dev" "pw") [("a", Json.num 1)] [1672531200]
      (.response 200 (.ok ""))
  exact ⟨h4, h2 (.arr []), by decide, h3 (.arr []) "a" (by decide)⟩

/-- Whether the signed-URL content step fails (transport failure or a
non-200 status). -/
def contentFails (out : ContentOutcome) : Bool :=
  match out with
  | .transportError _ => true
  | .response s _ _ => s != 200

/-- Whether the metadata step of a `GetFile` attempt yields a decoded
`fileResponse`. -/
def metaOk (o : FileFetchOutcome) : Bool :=
  match o.meta with
  | .response (.ok _) => true
  | _ => false

/-- Whether a whole `GetFile` attempt succeeds. -/
def fetchOk (o : FileFetchOutcome) : Bool := metaOk o && !contentFails o.content

/-- The error a failing `GetFile` attempt returns (meaningful only when
`fetchOk` is false). -/
def fetchErrD (o : FileFetchOutcome) : GoError :=
  match o.meta with
  | .transportError m => .other m
  | .response (.error m) => .other m
  | .response (.ok _) =>
    match o.content with
    | .transportError m => .other m
    | .response _ st _ => .other ("bad status: " ++ st)

/-- The bytes a successful `GetFile` attempt writes. -/
def fetchBody (o : FileFetchOutcome) : List Nat :=
  match o.content with
  | .response _ _ b => b
  | .transportError _ => []



theorem setFile_setFile (fs : FileSystem) (p : String) (c1 c2 : List Nat) :
    setFile (setFile fs p c1) p c2 = setFile fs p c2 := by
  unfold setFile
  simp [List.filter_cons, List.filter_filter, Bool.and_self]

theorem getFileContent_setFile (fs : FileSystem) (p q : String) (c : List Nat) :
    getFileContent (setFile fs p c) q
      = if q = p then some c else getFileContent fs q := by
  unfold getFileContent setFile
  by_cases hqp : q = p
  · subst hqp
    simp [List.find?]
  · have h2 : (p == q) = false := beq_eq_false_iff_ne.mpr (fun hh => hqp hh.symm)
    simp [List.find?, h2, hqp, find?_filter_ne fs.files p q hqp]

theorem GetFile_api_eq (api : CacophonyAPI) (fileID : Int) (path : String)
    (fs : FileSystem) (o : FileFetchOutcome) :
    (GetFile api fileID path fs o).api = api := by
  obtain ⟨meta, content⟩ := o
  cases meta with
  | transportError m => rfl
  | response d =>
    cases d with
    | error m => rfl
    | ok fr =>
      show (getFileFromJWT api fr.Jwt path fs content).api = api
      cases content with
      | transportError m => rfl
      | response s st b =>
        by_cases h200 : s = 200 <;> simp [getFileFromJWT, h200]

theorem GetFile_dirs_eq (api : CacophonyAPI) (fileID : Int) (path : String)
    (fs : FileSystem) (o : FileFetchOutcome) :
    (GetFile api fileID path fs o).fs.dirs = fs.dirs := by
  obtain ⟨meta, content⟩ := o
  cases meta with
  | transportError m => rfl
  | response d =>
    cases d with
    | error m => rfl
    | ok fr =>
      show (getFileFromJWT api fr.Jwt path fs content).fs.dirs = fs.dirs
      cases content with
      | transportError m => rfl
      | response s st b =>
        by_cases h200 : s = 200 <;> simp [getFileFromJWT, h200, setFile]

theorem GetFile_eq_of_ok (api : CacophonyAPI) (fileID : Int) (path : String)
    (fs : FileSystem) (o : FileFetchOutcome) (h : fetchOk o = true) :
    GetFile api fileID path fs o = ⟨api, setFile fs path (fetchBody o), .ok ()⟩ := by
  obtain ⟨meta, content⟩ := o
  cases meta with
  | transportError m => simp [fetchOk, metaOk] at h
  | response d =>
    cases d with
    | error m => simp [fetchOk, metaOk] at h
    | ok fr =>
      cases content with
      | transportError m => simp [fetchOk, metaOk, contentFails] at h
      | response s st b =>
        have hs : s = 200 := by
          simpa [fetchOk, metaOk, contentFails] using h
        subst hs
        show getFileFromJWT api fr.Jwt path fs (.response 200 st b) = _
        unfold getFileFromJWT
        simp [fetchBody, setFile_setFile]

theorem GetFile_eq_of_fail (api : CacophonyAPI) (fileID : Int) (path : String)
    (fs : FileSystem) (o : FileFetchOutcome) (h : fetchOk o = false) :
    GetFile api fileID path fs o
      = ⟨api, if metaOk o = true then setFile fs path [] else fs,
          .error (fetchErrD o)⟩ := by
  obtain ⟨meta, content⟩ := o
  cases meta with
  | transportError m => simp [GetFile, metaOk, fetchErrD]
  | response d =>
    cases d with
    | error m => simp [GetFile, metaOk, fetchErrD]
    | ok fr =>
      have hcf : contentFails content = true := by
        simpa [fetchOk, metaOk] using h
      cases content with
      | transportError m =>
        simp [GetFile, getFileFromJWT, metaOk, fetchErrD]
      | response s st b =>
        have hs : s ≠ 200 := by simpa [contentFails] using hcf
        simp [GetFile, getFileFromJWT, metaOk, fetchErrD, hs]

theorem GetFile_content_other (api : CacophonyAPI) (fileID : Int) (path : String)
    (fs : FileSystem) (o : FileFetchOutcome) (q : String) (h : q ≠ path) :
    getFileContent (GetFile api fileID path fs o).fs q = getFileContent fs q := by
  obtain ⟨meta, content⟩ := o
  cases meta with
  | transportError m => rfl
  | response d =>
    cases d with
    | error m => rfl
    | ok fr =>
      show getFileContent (getFileFromJWT api fr.Jwt path fs content).fs q = _
      cases content with
      | transportError m =>
        show getFileContent (setFile fs path []) q = _
        simp [getFileContent_setFile, h]
      | response s st b =>
        by_cases h200 : s = 200 <;>
          simp [getFileFromJWT, h200, setFile_setFile, getFileContent_setFile, h]

theorem getFilesLoop_api_eq (folder : String) :
    ∀ (ids : List Int) (api : CacophonyAPI) (fs : FileSystem)
      (oracle : Nat → FileFetchOutcome),
      (getFilesLoop api folder ids fs oracle).api = api := by
  intro ids
  induction ids with
  | nil => intro api fs oracle; rfl
  | cons id rest ih =>
    intro api fs oracle
    simp only [getFilesLoop]
    cases hG : (GetFile api id (joinPath folder (toString id)) fs (oracle 0)).result with
    | error e => simp [hG, GetFile_api_eq]
    | ok u => simp [hG, ih, GetFile_api_eq]

theorem getFilesLoop_dirs_eq (folder : String) :
    ∀ (ids : List Int) (api : CacophonyAPI) (fs : FileSystem)
      (oracle : Nat → FileFetchOutcome),
      (getFilesLoop api folder ids fs oracle).fs.dirs = fs.dirs := by
  intro ids
  induction ids with
  | nil => intro api fs oracle; rfl
  | cons id rest ih =>
    intro api fs oracle
    simp only [getFilesLoop]
    cases hG : (GetFile api id (joinPath folder (toString id)) fs (oracle 0)).result with
    | error e => simp [hG, GetFile_dirs_eq]
    | ok u => simp [hG, ih, GetFile_dirs_eq]

theorem getFilesLoop_fail (folder : String) :
    ∀ (ids : List Int) (api : CacophonyAPI) (fs : FileSystem)
      (oracle : Nat → FileFetchOutcome) (i : Nat),
      i < ids.length →
      (∀ j, j < i → fetchOk (oracle j) = true) →
      fetchOk (oracle i) = false →
      (getFilesLoop api folder ids fs oracle).attempts = i + 1
      ∧ (getFilesLoop api folder ids fs oracle).result
          = .error (fetchErrD (oracle i)) := by
  intro ids
  induction ids with
  | nil => intro api fs oracle i hi hok hfail; simp at hi
  | cons id rest ih =>
    intro api fs oracle i hi hok hfail
    cases i with
    | zero =>
      have hG := GetFile_eq_of_fail api id (joinPath folder (toString id)) fs
        (oracle 0) hfail
      constructor <;> simp [getFilesLoop, hG]
    | succ i' =>
      have hG := GetFile_eq_of_ok api id (joinPath folder (toString id)) fs
        (oracle 0) (hok 0 (Nat.succ_pos i'))
      obtain ⟨ha, hr⟩ := ih api
        (setFile fs (joinPath folder (toString id)) (fetchBody (oracle 0)))
        (fun n => oracle (n + 1)) i'
        (by simpa using Nat.lt_of_succ_lt_succ hi)
        (fun j hj => hok (j + 1) (by omega)) hfail
      constructor <;> simp [getFilesLoop, hG, ha, hr]

theorem getFilesLoop_untouched (folder : String) :
    ∀ (ids : List Int) (api : CacophonyAPI) (fs : FileSystem)
      (oracle : Nat → FileFetchOutcome) (i : Nat) (q : String),
      i < ids.length →
      (∀ j, j < i → fetchOk (oracle j) = true) →
      fetchOk (oracle i) = false →
      (∀ j, j < i → joinPath folder (toString (ids.getD j 0)) ≠ q) →
      (metaOk (oracle i) = true → joinPath folder (toString (ids.getD i 0)) ≠ q) →
      getFileContent (getFilesLoop api folder ids fs oracle).fs q
        = getFileContent fs q := by
  intro ids
  induction ids with
  | nil => intro api fs oracle i q hi hok hfail hq1 hq2; simp at hi
  | cons id rest ih =>
    intro api fs oracle i q hi hok hfail hq1 hq2
    cases i with
    | zero =>
      have hG := GetFile_eq_of_fail api id (joinPath folder (toString id)) fs
        (oracle 0) hfail
      cases hm : metaOk (oracle 0) with
      | false => simp [getFilesLoop, hG, hm]
      | true =>
        have hne : q ≠ joinPath folder (toString id) := fun hh => hq2 hm hh.symm
        simp [getFilesLoop, hG, hm, getFileContent_setFile, hne]
    | succ i' =>
      have hG := GetFile_eq_of_ok api id (joinPath folder (toString id)) fs
        (oracle 0) (hok 0 (Nat.succ_pos i'))
      have hne : q ≠ joinPath folder (toString id) := fun hh =>
        hq1 0 (Nat.succ_pos i') hh.symm
      have step : getFileContent
          (setFile fs (joinPath folder (toString id)) (fetchBody (oracle 0))) q
          = getFileContent fs q := by
        simp [getFileContent_setFile, hne]
      have ihh := ih api
        (setFile fs (joinPath folder (toString id)) (fetchBody (oracle 0)))
        (fun n => oracle (n + 1)) i' q
        (by simpa using Nat.lt_of_succ_lt_succ hi)
        (fun j hj => hok (j + 1) (by omega)) hfail
        (fun j hj => hq1 (j + 1) (by omega))
        (fun hm => hq2 hm)
      simp only [getFilesLoop, hG]
      simpa using ihh.trans step

theorem getFilesLoop_inplace (folder : String) :
    ∀ (ids : List Int) (api : CacophonyAPI) (fs : FileSystem)
      (oracle : Nat → FileFetchOutcome) (i j : Nat),
      i < ids.length →
      (∀ k, k < i → fetchOk (oracle k) = true) →
      fetchOk (oracle i) = false →
      j < i →
      (∀ k, j < k → k < i →
        joinPath folder (toString (ids.getD k 0))
          ≠ joinPath folder (toString (ids.getD j 0))) →
      (metaOk (oracle i) = true →
        joinPath folder (toString (ids.getD i 0))
          ≠ joinPath folder (toString (ids.getD j 0))) →
      getFileContent (getFilesLoop api folder ids fs oracle).fs
          (joinPath folder (toString (ids.getD j 0)))
        = some (fetchBody (oracle j)) := by
  intro ids
  induction ids with
  | nil => intro api fs oracle i j hi hok hfail hj hlast hmeta; simp at hi
  | cons id rest ih =>
    intro api fs oracle i j hi hok hfail hj hlast hmeta
    cases i with
    | zero => exact absurd hj (by omega)
    | succ i' =>
      have hG := GetFile_eq_of_ok api id (joinPath folder (toString id)) fs
        (oracle 0) (hok 0 (Nat.succ_pos i'))
      cases j with
      | zero =>
        have huntouched := getFilesLoop_untouched folder rest api
          (setFile fs (joinPath folder (toString id)) (fetchBody (oracle 0)))
          (fun n => oracle (n + 1)) i' (joinPath folder (toString id))
          (by simpa using Nat.lt_of_succ_lt_succ hi)
          (fun k hk => hok (k + 1) (by omega)) hfail
          (fun k hk => hlast (k + 1) (by omega) (by omega))
          (fun hm => hmeta hm)
        have hself : getFileContent
            (setFile fs (joinPath folder (toString id)) (fetchBody (oracle 0)))
            (joinPath folder (toString id)) = some (fetchBody (oracle 0)) := by
          simp [getFileContent_setFile]
        simp only [getFilesLoop, hG]
        simpa using huntouched.trans hself
      | succ j' =>
        have ihh := ih api
          (setFile fs (joinPath folder (toString id)) (fetchBody (oracle 0)))
          (fun n => oracle (n + 1)) i' j'
          (by simpa using Nat.lt_of_succ_lt_succ hi)
          (fun k hk => hok (k + 1) (by omega)) hfail
          (by omega)
          (fun k hk1 hk2 => hlast (k + 1) (by omega) (by omega))
          (fun hm => hmeta hm)
        simp only [getFilesLoop, hG]
        simpa using ihh

/-- Transport behaviour where every `GetFile` attempt succeeds, the n-th
attempt fetching the bytes `[n, n]`. -/
def oracle575 : Nat → FileFetchOutcome := fun n =>
  ⟨.response (.ok ⟨"jwt"⟩), .response 200 "200 OK" [n, n]⟩

/-- Run of `GetFilesFromSchedule` on the spec's `[5, 7, 5]` schedule with
every fetch succeeding. -/
def run575 : FetchAllResult :=
  GetFilesFromSchedule (mkAPI "s" "g" "dev" "pw") ⟨[], [5, 7, 5], 0, ""⟩ "dir"
    ⟨[], []⟩ oracle575

/-- Transport behaviour where attempt 0 succeeds with bytes `[9]` and every
later attempt passes its metadata step but hits status 404 at the
signed-URL step. -/
def oracle55 : Nat → FileFetchOutcome := fun n =>
  if n = 0 then ⟨.response (.ok ⟨"jwt"⟩), .response 200 "200 OK" [9]⟩
  else ⟨.response (.ok ⟨"jwt"⟩), .response 404 "404 Not Found" []⟩

/-- Run of `GetFilesFromSchedule` on a `[5, 5]` schedule under `oracle55`:
the second fetch of ID 5 fails after truncating `dir/5`. -/
def run55 : FetchAllResult :=
  GetFilesFromSchedule (mkAPI "s" "g" "dev" "pw") ⟨[], [5, 5], 0, ""⟩ "dir"
    ⟨[], []⟩ oracle55

/-- C8 counterexample: with schedule IDs `[5, 5]`, a successful first fetch
writes `[9]` to `dir/5`; the second fetch of the same ID fails at the
signed-URL step, and the run returns that error — but the already-fetched
file `dir/5` has been truncated to empty rather than left in place. -/
theorem C8_counterexample :
    run55.result = .error (.other "bad status: 404 Not Found")
    ∧ fetchOk (oracle55 0) = true
    ∧ fetchBody (oracle55 0) = [9]
    ∧ getFileContent run55.fs "dir/5" = some []
    ∧ getFileContent run55.fs "dir/5" ≠ some (fetchBody (oracle55 0)) :=
  ⟨rfl, rfl, rfl, rfl, by decide⟩

/-- C8 (amended): `GetFilesFromSchedule` ensures the destination directory
exists first; it attempts every ID of the schedule's flat file-ID list in
order without de-duplication — `[5, 7, 5]` yields exactly three fetch
attempts and two distinct on-disk files, each written to
`destinationDir/<fileID>` — and it stops at the first ID whose fetch
fails, returning that error; a file fetched for an earlier ID is left in
place provided its path is not the failing attempt's own path (a failing
download truncates the file at its own path, destroying an earlier fetch
of the same ID). -/
theorem C8_fetch_all_schedule_files :
    (∀ (api : CacophonyAPI) (schedule : Schedule) (folder : String)
        (fs : FileSystem) (oracle : Nat → FileFetchOutcome),
      (GetFilesFromSchedule api schedule folder fs oracle).fs.dirs
        = folder :: fs.dirs)
    ∧ (run575.attempts = 3 ∧ run575.result = .ok ()
        ∧ run575.fs.files = [("dir/5", [2, 2]), ("dir/7", [1, 1])])
    ∧ (∀ (api : CacophonyAPI) (schedule : Schedule) (folder : String)
        (fs : FileSystem) (oracle : Nat → FileFetchOutcome) (i : Nat),
        i < schedule.AllSounds.length →
        (∀ j, j < i → fetchOk (oracle j) = true) →
        fetchOk (oracle i) = false →
        (GetFilesFromSchedule api schedule folder fs oracle).attempts = i + 1
        ∧ (GetFilesFromSchedule api schedule folder fs oracle).result
            = .error (fetchErrD (oracle i)))
    ∧ (∀ (api : CacophonyAPI) (schedule : Schedule) (folder : String)
        (fs : FileSystem) (oracle : Nat → FileFetchOutcome) (i j : Nat),
        i < schedule.AllSounds.length →
        (∀ k, k < i → fetchOk (oracle k) = true) →
        fetchOk (oracle i) = false →
        j < i →
        (∀ k, j < k → k < i →
          joinPath folder (toString (schedule.AllSounds.getD k 0))
            ≠ joinPath folder (toString (schedule.AllSounds.getD j 0))) →
        (metaOk (oracle i) = true →
          joinPath folder (toString (schedule.AllSounds.getD i 0))
            ≠ joinPath folder (toString (schedule.AllSounds.getD j 0))) →
        getFileContent (GetFilesFromSchedule api schedule folder fs oracle).fs
            (joinPath folder (toString (schedule.AllSounds.getD j 0)))
          = some (fetchBody (oracle j))) := by
  refine ⟨?_, ⟨rfl, rfl, rfl⟩, ?_, ?_⟩
  · intro api schedule folder fs oracle
    simpa [GetFilesFromSchedule, mkdirAll] using
      getFilesLoop_dirs_eq folder schedule.AllSounds api (mkdirAll fs folder) oracle
  · intro api schedule folder fs oracle i hi hok hfail
    simpa [GetFilesFromSchedule] using
      getFilesLoop_fail folder schedule.AllSounds api (mkdirAll fs folder) oracle
        i hi hok hfail
  · intro api schedule folder fs oracle i j hi hok hfail hj hlast hmeta
    simpa [GetFilesFromSchedule] using
      getFilesLoop_inplace folder schedule.AllSounds api (mkdirAll fs folder)
        oracle i j hi hok hfail hj hlast hmeta

/-- Witness for C8's amended theorem: a `[5, 7]` schedule under `oracle55`
(first fetch succeeds writing `[9]`, second fails with 404): the directory
is created, the run stops after two attempts with the 404 error, and
`dir/5` keeps its fetched content. -/
theorem C8_witness :
    (GetFilesFromSchedule (mkAPI "s" "g" "dev" "pw") (⟨[], [5, 7], 0, ""⟩ : Schedule)
        "dir" ⟨[], []⟩ oracle55).fs.dirs = ["dir"]
    ∧ (GetFilesFromSchedule (mkAPI "s" "g" "dev" "pw") (⟨[], [5, 7], 0, ""⟩ : Schedule)
        "dir" ⟨[], []⟩ oracle55).attempts = 2
    ∧ (GetFilesFromSchedule (mkAPI "s" "g" "dev" "pw") (⟨[], [5, 7], 0, ""⟩ : Schedule)
        "dir" ⟨[], []⟩ oracle55).result = .error (.other "bad status: 404 Not Found")
    ∧ getFileContent (GetFilesFromSchedule (mkAPI "s" "g" "dev" "pw")
        (⟨[], [5, 7], 0, ""⟩ : Schedule) "dir" ⟨[], []⟩ oracle55).fs "dir/5"
      = some [9] := by
  obtain ⟨h1, _, h3, h4⟩ := C8_fetch_all_schedule_files
  refine ⟨h1 (mkAPI "s" "g" "dev" "pw") ⟨[], [5, 7], 0, ""⟩ "dir" ⟨[], []⟩ oracle55,
    ?_, ?_, ?_⟩
  · exact (h3 (mkAPI "s" "g" "dev" "pw") ⟨[], [5, 7], 0, ""⟩ "dir" ⟨[], []⟩ oracle55 1
      (by decide)
      (fun j hj => by
        have hj0 : j = 0 := by omega
        subst hj0; rfl)
      rfl).1
  · exact ((h3 (mkAPI "s" "g" "dev" "pw") ⟨[], [5, 7], 0, ""⟩ "dir" ⟨[], []⟩ oracle55 1
      (by decide)
      (fun j hj => by
        have hj0 : j = 0 := by omega
        subst hj0; rfl)
      rfl).2).trans rfl
  · exact (h4 (mkAPI "s" "g" "dev" "pw") ⟨[], [5, 7], 0, ""⟩ "dir" ⟨[], []⟩ oracle55 1 0
      (by decide)
      (fun k hk => by
        have hk0 : k = 0 := by omega
        subst hk0; rfl)
      rfl
      (by decide)
      (fun k hk1 hk2 => absurd hk1 (by omega))
      (fun _ => by decide)).trans rfl

/-- C9: the access token of a freshly constructed session is the empty
string; GetSchedule, GetFile, GetFilesFromSchedule and ReportEvent leave
every field of the session unchanged; and authentication is the only
operation that mutates the session — it either leaves it unchanged (on any
failure) or stores the issued token (on success). -/
theorem C9_token_mutated_only_by_auth :
    (∀ s g d p, (mkAPI s g d p).token = "")
    ∧ (∀ (api : CacophonyAPI) (out : ScheduleOutcome),
        (GetSchedule api out).api = api)
    ∧ (∀ (api : CacophonyAPI) (fileID : Int) (path : String) (fs : FileSystem)
        (o : FileFetchOutcome), (GetFile api fileID path fs o).api = api)
    ∧ (∀ (api : CacophonyAPI) (schedule : Schedule) (folder : String)
        (fs : FileSystem) (oracle : Nat → FileFetchOutcome),
        (GetFilesFromSchedule api schedule folder fs oracle).api = api)
    ∧ (∀ (api : CacophonyAPI) (jsonDetails : Except String (List (String × Json)))
        (times : List Int) (out : ReportOutcome),
        (ReportEvent api jsonDetails times out).api = api)
    ∧ (∀ (api : CacophonyAPI) (out : AuthOutcome),
        (newToken api out).api = api
        ∨ ∃ r, out = .response (.ok r) ∧ r.Success = true
            ∧ (newToken api out).api = { api with token := r.Token }) := by
  refine ⟨fun s g d p => rfl, ?_, ?_, ?_, ?_, ?_⟩
  · intro api out
    cases out with
    | transportError m => rfl
    | response d =>
      cases d with
      | error m => rfl
      | ok sr => rfl
  · exact fun api fileID path fs o => GetFile_api_eq api fileID path fs o
  · intro api schedule folder fs oracle
    simpa [GetFilesFromSchedule] using
      getFilesLoop_api_eq folder schedule.AllSounds api (mkdirAll fs folder) oracle
  · intro api jd times out
    cases jd with
    | error e => rfl
    | ok details =>
      cases out with
      | transportError m => rfl
      | response s b =>
        simp only [ReportEvent]
        split
        · rfl
        · cases b with
          | error e => rfl
          | ok body => rfl
  · intro api out
    by_cases hp : api.password = ""
    · left; simp [newToken, hp]
    · cases out with
      | transportError m => left; simp [newToken, hp]
      | response d =>
        cases d with
        | error m => left; simp [newToken, hp]
        | ok r =>
          cases hr : r.Success with
          | false => left; simp [newToken, hp, hr]
          | true =>
            right
            exact ⟨r, rfl, hr, by simp [newToken, hp, hr]⟩

/-- C10: when the metadata step of `GetFile` succeeds and the signed-URL
download then fails (transport failure or non-200 status), `GetFile`
returns an error, yet the destination file exists with empty content —
`os.Create` truncated it before the download was attempted, destroying any
prior content at that path. -/
theorem C10_failed_download_truncates :
    ∀ (api : CacophonyAPI) (fileID : Int) (path : String) (fs : FileSystem)
      (fr : fileResponse) (co : ContentOutcome), contentFails co = true →
      (∃ e, (GetFile api fileID path fs ⟨.response (.ok fr), co⟩).result
          = .error e)
      ∧ getFileContent (GetFile api fileID path fs ⟨.response (.ok fr), co⟩).fs
          path = some [] := by
  intro api fileID path fs fr co hco
  have hfail : fetchOk ⟨.response (.ok fr), co⟩ = false := by
    simp [fetchOk, metaOk, hco]
  have hG := GetFile_eq_of_fail api fileID path fs ⟨.response (.ok fr), co⟩ hfail
  have hm : metaOk ⟨MetaOutcome.response (.ok fr), co⟩ = true := rfl
  rw [hG]
  constructor
  · exact ⟨fetchErrD ⟨.response (.ok fr), co⟩, rfl⟩
  · simp [hm, getFileContent_setFile]

/-- Witness for C10: a 404 at the signed-URL step truncates a destination
file that previously held `[1, 2]`. -/
theorem C10_witness :
    contentFails (.response 404 "404 Not Found" [7]) = true
    ∧ (∃ e, (GetFile (mkAPI "s" "g" "dev" "pw") 5 "dir/5"
        ⟨[], [("dir/5", [1, 2])]⟩
        ⟨.response (.ok ⟨"jwt"⟩), .response 404 "404 Not Found" [7]⟩).result
          = .error e)
    ∧ getFileContent (GetFile (mkAPI "s" "g" "dev" "pw") 5 "dir/5"
        ⟨[], [("dir/5", [1, 2])]⟩
        ⟨.response (.ok ⟨"jwt"⟩), .response 404 "404 Not Found" [7]⟩).fs "dir/5"
      = some [] := by
  refine ⟨rfl, ?_, ?_⟩
  · exact (C10_failed_download_truncates (mkAPI "s" "g" "dev" "pw") 5 "dir/5"
      ⟨[], [("dir/5", [1, 2])]⟩ ⟨"jwt"⟩ (.response 404 "404 Not Found" [7]) rfl).1
  · exact (C10_failed_download_truncates (mkAPI "s" "g" "dev" "pw") 5 "dir/5"
      ⟨[], [("dir/5", [1, 2])]⟩ ⟨"jwt"⟩ (.response 404 "404 Not Found" [7]) rfl).2
